import Mathlib

/-
Shallow embedding of the DramaChinavip bot (src/bot_db.py): a Telegram bot
gating video deep links behind time-limited VIP entitlements stored in two
relational tables, `videos(id, url)` and `vip_users(user_id, expiry_time,
package)`.  Tables are modelled as association lists keyed by strings (primary
keys are unique, so delete removes every row with the key and insert overwrites
it).  Timestamps are integers (seconds since epoch); handlers take the current
time `now` explicitly in place of `time.time()`.  Outbound messages to the
command's chat are collected in a list of `Reply` values, one constructor per
`bot.send_message` call site; best-effort notifications to third-party chats
(and their try/except fallbacks) belong to the external transport and are not
part of the state.
-/

set_option autoImplicit false

namespace VipBot

/-- Python `str.split()` with no arguments: split on runs of whitespace,
dropping empty pieces.  `wsTokensGo acc cs` accumulates the current token
(reversed) in `acc`. -/
def wsTokensGo : List Char → List Char → List String
  | acc, [] => if acc.isEmpty then [] else [String.mk acc.reverse]
  | acc, c :: cs =>
    if c.isWhitespace then
      if acc.isEmpty then wsTokensGo [] cs
      else String.mk acc.reverse :: wsTokensGo [] cs
    else wsTokensGo (c :: acc) cs

/-- Python `message.text.split()` (used by `/start`, `/setvip`, `/delvideo`,
`/removevip`). -/
def pySplit (s : String) : List String :=
  wsTokensGo [] s.data

/-- Python `message.text.split(maxsplit=1)` (used by `/addvideo`): leading
whitespace skipped, first token, then the remainder of the string after the
separating whitespace run (kept verbatim), empty remainder dropped. -/
def pySplitMax1 (s : String) : List String :=
  let cs := s.data.dropWhile Char.isWhitespace
  if cs.isEmpty then []
  else
    let tok := cs.takeWhile (fun c => !c.isWhitespace)
    let rest := (cs.dropWhile (fun c => !c.isWhitespace)).dropWhile Char.isWhitespace
    if rest.isEmpty then [String.mk tok] else [String.mk tok, String.mk rest]

/-- Python `str.lower()` (ASCII-faithful; the package labels compared against
it are ASCII). -/
def pyLower (s : String) : String :=
  String.mk (s.data.map Char.toLower)

/-- Python `str.strip()` : drop leading and trailing whitespace. -/
def pyStrip (s : String) : String :=
  String.mk (((s.data.dropWhile Char.isWhitespace).reverse.dropWhile Char.isWhitespace).reverse)

/-- Python `str.lstrip('@')`: drop every leading `@`. -/
def lstripAt (s : String) : String :=
  String.mk (s.data.dropWhile (fun c => c == '@'))

/-- Lookup in an association list keyed by strings: the relational
`Table.query.get(key)` of both tables. -/
def tlookup {α : Type} : List (String × α) → String → Option α
  | [], _ => none
  | (k, v) :: rest, key => if k == key then some v else tlookup rest key

/-- Key-overwrite insert: the effect on the table of committing a new or
mutated row whose primary key is `key` (primary keys are unique, so an insert
on an existing key replaces the row). -/
def tableInsert {α : Type} : List (String × α) → String → α → List (String × α)
  | [], key, v => [(key, v)]
  | (k, w) :: rest, key, v =>
    if k == key then (key, v) :: rest else (k, w) :: tableInsert rest key v

/-- Delete-by-primary-key: `db.session.delete(row)` on the row with this key
(unique, so every binding with the key goes). -/
def tableDelete {α : Type} (t : List (String × α)) (key : String) : List (String × α) :=
  t.filter (fun p => p.1 != key)

/-- The configured `ADMIN_ID` global: either a numeric Telegram id or a
username string (kept verbatim, `@` included), per the parse at module load. -/
inductive AdminId where
  | num (n : Int)
  | uname (s : String)
deriving DecidableEq

/-- Decimal digit run to a number, `none` when empty or not all digits. -/
def parseDigits (cs : List Char) : Option Nat :=
  if cs.isEmpty then none
  else if cs.all Char.isDigit then
    some (cs.foldl (fun n c => n * 10 + (c.toNat - 48)) 0)
  else none

/-- Python `int(s)` on a decimal string: surrounding whitespace stripped,
optional sign, then digits; `none` models the `ValueError`.  (Python also
accepts `_` digit separators; no use in this development depends on them.) -/
def pyParseInt (s : String) : Option Int :=
  let cs := ((s.data.dropWhile Char.isWhitespace).reverse.dropWhile Char.isWhitespace).reverse
  match cs with
  | '-' :: rest => (parseDigits rest).map (fun n => -(n : Int))
  | '+' :: rest => (parseDigits rest).map (fun n => (n : Int))
  | rest => (parseDigits rest).map (fun n => (n : Int))

/-- Module-load parsing of the `ADMIN_ID` environment value (default "0"):
a string starting with `@` is kept as a username, otherwise it is parsed as an
int, falling back to `0` on a `ValueError`. -/
def parse_admin_id (s : String) : AdminId :=
  if s.data.head? == some '@' then AdminId.uname s
  else
    match pyParseInt s with
    | some n => AdminId.num n
    | none => AdminId.num 0

/-- An inbound Telegram message as the handlers read it: sender id, optional
sender username, and the text.  The chat id only addresses the replies and is
not modelled. -/
structure Message where
  user_id : Int
  username : Option String
  text : String
deriving DecidableEq

/-- A row of the `vip_users` table (the `VipUser` model): expiry timestamp in
epoch seconds and the package label.  The key `user_id` is the association
list key. -/
structure VipEntry where
  expiry_time : Int
  package : String
deriving DecidableEq

/-- Modelled from the spec: `VipUser.is_active` is defined in `models.py`,
which is not among the provided sources.  The spec fixes validity as
`expiresAt > now`, computed at read time. -/
def VipEntry.is_active (e : VipEntry) (now : Int) : Bool :=
  e.expiry_time > now

/-- The two persisted tables: `videos` maps a short content id to its URL,
`vips` maps a user id (as a string) to its entitlement row. -/
structure BotState where
  videos : List (String × String)
  vips : List (String × VipEntry)
deriving DecidableEq

/-- The `VIP_PACKAGES` table: package label to duration in days. -/
def VIP_PACKAGES : List (String × Int) :=
  [("1day", 1), ("3days", 3), ("7days", 7), ("30days", 30)]

/-- The `is_admin` helper, lines 75-106 of `bot_db.py`.  The hardcoded check
`username == "Dssky7282" or f"@{username}" == "@Dssky7282"` collapses to the
first disjunct for every `Option String` username (for `None` the f-string
gives `"@None"`).  When `ADMIN_ID` is numeric the function returns
`user_id == ADMIN_ID` immediately; only in the username branch does control
fall through to the `ADMIN_ID == 0 or ADMIN_ID == "0" or ADMIN_ID == ""`
first-come-admin fallback, where the `== 0` disjunct is statically false.
Python's truthiness test `if username and ...` makes an empty username fail
the match. -/
def is_admin (admin : AdminId) (m : Message) : Bool :=
  if m.username == some "Dssky7282" then true
  else
    match admin with
    | AdminId.num n => m.user_id == n
    | AdminId.uname s =>
      let username_match :=
        match m.username with
        | some u => (u != "") && (("@" ++ u) == s || u == lstripAt s)
        | none => false
      if username_match then true
      else if s == "0" || s == "" then true
      else false

/-- The `is_vip` helper, lines 109-120: returns `(True, expiry_time)` when a
row exists and is still active, `(False, 0)` otherwise. -/
def is_vip (vips : List (String × VipEntry)) (user_id : Int) (now : Int) : Bool × Int :=
  match tlookup vips (toString user_id) with
  | some vip_user =>
    if vip_user.is_active now then (true, vip_user.expiry_time) else (false, 0)
  | none => (false, 0)

/-- The `get_vip_time_remaining` helper, lines 123-140. -/
def get_vip_time_remaining (expiry_time now : Int) : String :=
  let remaining := expiry_time - now
  if remaining ≤ 0 then "expired"
  else
    let days := remaining / (24 * 3600)
    let r1 := remaining % (24 * 3600)
    let hours := r1 / 3600
    let r2 := r1 % 3600
    let minutes := r2 / 60
    if days > 0 then toString days ++ " days, " ++ toString hours ++ " hours"
    else if hours > 0 then toString hours ++ " hours, " ++ toString minutes ++ " minutes"
    else toString minutes ++ " minutes"

/-- One constructor per `bot.send_message` call site addressed to the
command's own chat, carrying the interpolated data.  `adminOnly` is the
"This command is only available for admins." rejection shared by every
admin-gated handler; `invalidLink` is the "This video link is invalid or has
expired." message; the `...Usage` constructors are the usage echoes; the
`...Success` / `...NotFound` constructors are the mutation outcome reports;
`setvipError` is the "Error setting VIP status. Check logs for details."
reply sent by the except arm at line 317 when the grant raises. -/
inductive Reply where
  | adminOnly
  | setvipUsage
  | invalidPackage
  | setvipSuccess (user_id package : String) (days : Int)
  | setvipError
  | removeVipUsage
  | removeVipSuccess (user_id : String)
  | removeVipNotFound (user_id : String)
  | delVideoUsage
  | delVideoSuccess (video_id : String)
  | delVideoNotFound (video_id : String)
  | addVideoUsage
  | videoAdded (video_id url : String)
  | videoAccess (url remaining : String)
  | paymentRequired
  | invalidLink
  | welcome (vip_status_text : String)
deriving DecidableEq

/-- The `/start` handler, lines 143-200: deep-link content resolution gated on
VIP validity; read-only, so only the replies are returned. -/
def handle_start (st : BotState) (m : Message) (now : Int) : List Reply :=
  match pySplit m.text with
  | _ :: video_id :: _ =>
    match tlookup st.videos video_id with
    | some video_url =>
      let res := is_vip st.vips m.user_id now
      if res.1 then [Reply.videoAccess video_url (get_vip_time_remaining res.2 now)]
      else [Reply.paymentRequired]
    | none => [Reply.invalidLink]
  | _ =>
    let res := is_vip st.vips m.user_id now
    let vip_status_text :=
      if res.1 then
        "\n\n✨ You have VIP status! Time remaining: " ++ get_vip_time_remaining res.2 now
      else ""
    [Reply.welcome vip_status_text]

/-- The `/addvideo` handler, lines 203-238: admin-gated; `video_id` stands for
the fresh `str(uuid.uuid4())[:8]` token generated at the call. -/
def handle_add_video (admin : AdminId) (st : BotState) (m : Message) (video_id : String) :
    BotState × List Reply :=
  if !is_admin admin m then (st, [Reply.adminOnly])
  else
    match pySplitMax1 m.text with
    | _ :: rawUrl :: _ =>
      let video_url := pyStrip rawUrl
      ({ st with videos := tableInsert st.videos video_id video_url },
       [Reply.videoAdded video_id video_url])
    | _ => (st, [Reply.addVideoUsage])

/-- The `/setvip` handler, lines 241-317: admin-gated; fewer than two
arguments echoes usage; an unknown (lowercased) package label is rejected; an
existing still-active row is mutated in place, extended to
`max(old, now + days)` with the package overwritten.  When the row exists but
is expired, the code constructs a new `VipUser` with the same primary key and
`db.session.add`'s it while the queried row is still in the session (lines
282-287); the commit then raises (identity-map conflict or primary-key
violation), the except arm at lines 315-317 sends the error reply, and the
old expired row persists unchanged.  Only when no row exists does the insert
of `now + days` succeed. -/
def handle_set_vip (admin : AdminId) (st : BotState) (m : Message) (now : Int) :
    BotState × List Reply :=
  if !is_admin admin m then (st, [Reply.adminOnly])
  else
    match pySplit m.text with
    | _ :: target_user_id :: rawPackage :: _ =>
      let package := pyLower rawPackage
      match tlookup VIP_PACKAGES package with
      | none => (st, [Reply.invalidPackage])
      | some days =>
        let expiry_time := now + days * 24 * 60 * 60
        match tlookup st.vips target_user_id with
        | some vip_user =>
          if vip_user.is_active now then
            let extended : VipEntry := ⟨max vip_user.expiry_time expiry_time, package⟩
            ({ st with vips := tableInsert st.vips target_user_id extended },
             [Reply.setvipSuccess target_user_id package days])
          else
            (st, [Reply.setvipError])
        | none =>
          ({ st with vips := tableInsert st.vips target_user_id ⟨expiry_time, package⟩ },
           [Reply.setvipSuccess target_user_id package days])
    | _ => (st, [Reply.setvipUsage])

/-- The `/delvideo` handler, lines 378-402: admin-gated; deletes the row when
it exists, otherwise reports not found. -/
def handle_del_video (admin : AdminId) (st : BotState) (m : Message) :
    BotState × List Reply :=
  if !is_admin admin m then (st, [Reply.adminOnly])
  else
    match pySplit m.text with
    | _ :: video_id :: _ =>
      match tlookup st.videos video_id with
      | some _ =>
        ({ st with videos := tableDelete st.videos video_id },
         [Reply.delVideoSuccess video_id])
      | none => (st, [Reply.delVideoNotFound video_id])
    | _ => (st, [Reply.delVideoUsage])

/-- The `/removevip` handler, lines 446-485: admin-gated; deletes the
entitlement row when it exists, otherwise reports that the user has no VIP
status. -/
def handle_remove_vip (admin : AdminId) (st : BotState) (m : Message) :
    BotState × List Reply :=
  if !is_admin admin m then (st, [Reply.adminOnly])
  else
    match pySplit m.text with
    | _ :: target_user_id :: _ =>
      match tlookup st.vips target_user_id with
      | some _ =>
        ({ st with vips := tableDelete st.vips target_user_id },
         [Reply.removeVipSuccess target_user_id])
      | none => (st, [Reply.removeVipNotFound target_user_id])
    | _ => (st, [Reply.removeVipUsage])

/-- Inserting a row and looking its key up gives back exactly that row. -/
theorem tlookup_tableInsert_self {α : Type} (t : List (String × α)) (k : String) (v : α) :
    tlookup (tableInsert t k v) k = some v := by
  induction t with
  | nil => simp [tableInsert, tlookup]
  | cons p rest ih =>
    obtain ⟨k1, v1⟩ := p
    by_cases h : k1 = k
    · simp [tableInsert, h, tlookup]
    · simp [tableInsert, h, tlookup, ih]

/-- Deleting a key removes every row with that key. -/
theorem tlookup_tableDelete_self {α : Type} (t : List (String × α)) (k : String) :
    tlookup (tableDelete t k) k = none := by
  induction t with
  | nil => simp [tableDelete, tlookup]
  | cons p rest ih =>
    obtain ⟨k1, v1⟩ := p
    by_cases h : k1 = k
    · simpa [tableDelete, h] using ih
    · simpa [tableDelete, h, tlookup] using ih

/-- On an authorized, well-formed grant over a still-active row, `/setvip`
writes the row extended to the max of the old and requested expiry, with the
package overwritten. -/
theorem set_vip_vips_active (admin : AdminId) (st : BotState) (m : Message)
    (now : Int) (c u p : String) (r : List String) (d : Int) (e : VipEntry)
    (hadm : is_admin admin m = true)
    (hargs : pySplit m.text = c :: u :: p :: r)
    (hpkg : tlookup VIP_PACKAGES (pyLower p) = some d)
    (hold : tlookup st.vips u = some e)
    (hact : e.is_active now = true) :
    (handle_set_vip admin st m now).1.vips =
      tableInsert st.vips u
        (VipEntry.mk (max e.expiry_time (now + d * 24 * 60 * 60)) (pyLower p)) := by
  unfold handle_set_vip
  rw [hargs, hadm]
  simp [hpkg, hold, hact]

/-- Section 4.3 of the spec, transcribed from its words: remaining time is
`expiresAt - now`; nonpositive gives the fixed "expired" indicator; otherwise
whole days, whole hours of the remainder and whole minutes of that remainder
by integer division, displaying days+hours if days are positive, else
hours+minutes if hours are positive, else minutes alone. -/
def formatRemaining_spec (expiresAt now : Int) : String :=
  let remaining := expiresAt - now
  if remaining ≤ 0 then "expired"
  else
    let days := remaining / (24 * 3600)
    let hours := remaining % (24 * 3600) / 3600
    let minutes := remaining % (24 * 3600) % 3600 / 60
    if days > 0 then toString days ++ " days, " ++ toString hours ++ " hours"
    else if hours > 0 then toString hours ++ " hours, " ++ toString minutes ++ " minutes"
    else toString minutes ++ " minutes"

/-- C1: contrary to the claim's expired-entitlement half, an authorized
re-grant over an expired row does not store `now + d days`: user 42 holds an
entitlement expired at 5, the admin grants the 1-day package at time 1000,
and the handler takes the duplicate-primary-key error path — the error reply
is sent and the old expired row persists unchanged. -/
theorem set_vip_expired_regrant_errors :
    VipEntry.is_active (VipEntry.mk 5 "1day") 1000 = false ∧
    handle_set_vip (AdminId.num 1) (BotState.mk [] [("42", VipEntry.mk 5 "1day")])
        (Message.mk 1 none "/setvip 42 1day") 1000 =
      (BotState.mk [] [("42", VipEntry.mk 5 "1day")], [Reply.setvipError]) :=
  ⟨by decide, by decide⟩

/-- C2: `is_vip` reports valid exactly when a row for the user exists with
`expiry_time` strictly above `now`, and whenever it reports invalid the
returned expiry component is 0. -/
theorem is_vip_valid_iff (vips : List (String × VipEntry)) (user_id now : Int) :
    ((is_vip vips user_id now).1 = true ↔
      ∃ e : VipEntry, tlookup vips (toString user_id) = some e ∧ now < e.expiry_time) ∧
    ((is_vip vips user_id now).1 = false → (is_vip vips user_id now).2 = 0) := by
  unfold is_vip
  cases h : tlookup vips (toString user_id) with
  | none => simp
  | some e =>
    by_cases ha : now < e.expiry_time
    · simp [VipEntry.is_active, ha]
    · simp [VipEntry.is_active, ha]

/-- C3: `get_vip_time_remaining` realizes the spec's formatting rule (expired
for nonpositive remaining time, otherwise the day/hour/minute decomposition by
integer division with the two most significant units shown), and in particular
maps 90000 s to "1 days, 1 hours", 5400 s to "1 hours, 30 minutes", 45 s to
"0 minutes" and -5 s to "expired". -/
theorem get_vip_time_remaining_matches_spec :
    (∀ expiresAt now : Int,
        get_vip_time_remaining expiresAt now = formatRemaining_spec expiresAt now) ∧
    get_vip_time_remaining 90000 0 = "1 days, 1 hours" ∧
    get_vip_time_remaining 5400 0 = "1 hours, 30 minutes" ∧
    get_vip_time_remaining 45 0 = "0 minutes" ∧
    get_vip_time_remaining (-5) 0 = "expired" :=
  ⟨fun _ _ => rfl, rfl, rfl, rfl, rfl⟩

/-- C7: re-granting a still-active entitlement never decreases the stored
expiry; when the requested expiry does not exceed the old one, the stored
expiry is unchanged. -/
theorem set_vip_never_decreases (admin : AdminId) (st : BotState) (m : Message)
    (now : Int) (c u p : String) (r : List String) (d : Int) (e : VipEntry)
    (hadm : is_admin admin m = true)
    (hargs : pySplit m.text = c :: u :: p :: r)
    (hpkg : tlookup VIP_PACKAGES (pyLower p) = some d)
    (hold : tlookup st.vips u = some e)
    (hact : e.is_active now = true) :
    ∃ e2 : VipEntry, tlookup (handle_set_vip admin st m now).1.vips u = some e2 ∧
      e.expiry_time ≤ e2.expiry_time ∧
      (now + d * 24 * 60 * 60 ≤ e.expiry_time → e2.expiry_time = e.expiry_time) := by
  rw [set_vip_vips_active admin st m now c u p r d e hadm hargs hpkg hold hact]
  refine ⟨_, tlookup_tableInsert_self _ _ _, le_max_left _ _, fun hle => ?_⟩
  exact max_eq_left hle

/-- C7 witness: granting the 1-day package to user 42, already valid until
864000 (ten days), at time 0 keeps the stored expiry at 864000. -/
theorem set_vip_never_decreases_witness :
    ∃ e2 : VipEntry, tlookup (handle_set_vip (AdminId.num 1)
        (BotState.mk [] [("42", VipEntry.mk 864000 "30days")])
        (Message.mk 1 none "/setvip 42 1day") 0).1.vips "42" = some e2 ∧
      (864000 : Int) ≤ e2.expiry_time ∧
      ((0 : Int) + 1 * 24 * 60 * 60 ≤ 864000 → e2.expiry_time = 864000) :=
  set_vip_never_decreases (AdminId.num 1) (BotState.mk [] [("42", VipEntry.mk 864000 "30days")])
    (Message.mk 1 none "/setvip 42 1day") 0 "/setvip" "42" "1day" [] 1
    (VipEntry.mk 864000 "30days") (by decide) (by decide) (by decide) (by decide) (by decide)

/-- C4: when the sender fails the admin check, each mutating handler
(`/setvip`, `/removevip`, `/addvideo`, `/delvideo`) replies with the
admin-only rejection and leaves the state exactly as it was. -/
theorem unauthorized_no_mutation (admin : AdminId) (st : BotState) (m : Message)
    (now : Int) (video_id : String)
    (hadm : is_admin admin m = false) :
    handle_set_vip admin st m now = (st, [Reply.adminOnly]) ∧
    handle_remove_vip admin st m = (st, [Reply.adminOnly]) ∧
    handle_add_video admin st m video_id = (st, [Reply.adminOnly]) ∧
    handle_del_video admin st m = (st, [Reply.adminOnly]) := by
  unfold handle_set_vip handle_remove_vip handle_add_video handle_del_video
  simp [hadm]

/-- C4 witness: a non-admin sender (id 99, admin configured as id 1) issuing
each of the four mutating commands gets the rejection and leaves a populated
store untouched. -/
theorem unauthorized_no_mutation_witness :
    handle_set_vip (AdminId.num 1) (BotState.mk [("abc", "http://x")] [("42", VipEntry.mk 5 "1day")])
        (Message.mk 99 none "/setvip 42 1day") 0 =
      (BotState.mk [("abc", "http://x")] [("42", VipEntry.mk 5 "1day")], [Reply.adminOnly]) ∧
    handle_remove_vip (AdminId.num 1) (BotState.mk [("abc", "http://x")] [("42", VipEntry.mk 5 "1day")])
        (Message.mk 99 none "/setvip 42 1day") =
      (BotState.mk [("abc", "http://x")] [("42", VipEntry.mk 5 "1day")], [Reply.adminOnly]) ∧
    handle_add_video (AdminId.num 1) (BotState.mk [("abc", "http://x")] [("42", VipEntry.mk 5 "1day")])
        (Message.mk 99 none "/setvip 42 1day") "fresh123" =
      (BotState.mk [("abc", "http://x")] [("42", VipEntry.mk 5 "1day")], [Reply.adminOnly]) ∧
    handle_del_video (AdminId.num 1) (BotState.mk [("abc", "http://x")] [("42", VipEntry.mk 5 "1day")])
        (Message.mk 99 none "/setvip 42 1day") =
      (BotState.mk [("abc", "http://x")] [("42", VipEntry.mk 5 "1day")], [Reply.adminOnly]) :=
  unauthorized_no_mutation (AdminId.num 1)
    (BotState.mk [("abc", "http://x")] [("42", VipEntry.mk 5 "1day")])
    (Message.mk 99 none "/setvip 42 1day") 0 "fresh123" (by decide)

/-- C5: contrary to the claim, the unset/zero default admin identity does not
make everyone an admin: "0" parses to the numeric id 0, and with a numeric
`ADMIN_ID` the function returns `user_id == ADMIN_ID` before the
first-come-admin fallback can run, so ordinary callers are denied. -/
theorem admin_unconfigured_denies :
    parse_admin_id "0" = AdminId.num 0 ∧
    is_admin (AdminId.num 0) (Message.mk 42 (some "alice") "/listvideos") = false ∧
    is_admin (AdminId.num 0) (Message.mk 7 none "/setvip 42 1day") = false :=
  ⟨by decide, by decide, by decide⟩

/-- C6: any caller whose username is the hardcoded "Dssky7282" passes the
admin check, whatever admin identity is configured and whatever the caller's
numeric id. -/
theorem is_admin_hardcoded_backdoor (admin : AdminId) (uid : Int) (t : String) :
    is_admin admin (Message.mk uid (some "Dssky7282") t) = true := by
  simp [is_admin]

/-- C8: a `/start` deep link whose content id is not in the videos table
always takes the distinct invalid-link reply path, for any such id string,
and the handler is a total function (no error path exists). -/
theorem handle_start_unknown_video (st : BotState) (m : Message) (now : Int)
    (c vid : String) (r : List String)
    (hargs : pySplit m.text = c :: vid :: r)
    (hvid : tlookup st.videos vid = none) :
    handle_start st m now = [Reply.invalidLink] := by
  unfold handle_start
  rw [hargs]
  simp [hvid]

/-- C8 witness: "/start zzz" against a store holding only the id "abc" gets
the invalid-link reply. -/
theorem handle_start_unknown_video_witness :
    handle_start (BotState.mk [("abc", "http://x")] []) (Message.mk 7 none "/start zzz") 0 =
      [Reply.invalidLink] :=
  handle_start_unknown_video (BotState.mk [("abc", "http://x")] [])
    (Message.mk 7 none "/start zzz") 0 "/start" "zzz" [] (by decide) (by decide)

/-- C9: `/delvideo` and `/removevip` report not-found and leave the state
unchanged when the id is absent, and report success with the row removed
exactly when a row with the id existed. -/
theorem delete_missing_not_found (admin : AdminId) (st : BotState)
    (m1 m2 : Message) (c1 c2 vid uid : String) (r1 r2 : List String)
    (hadm1 : is_admin admin m1 = true) (hadm2 : is_admin admin m2 = true)
    (hp1 : pySplit m1.text = c1 :: vid :: r1)
    (hp2 : pySplit m2.text = c2 :: uid :: r2) :
    (tlookup st.videos vid = none →
      handle_del_video admin st m1 = (st, [Reply.delVideoNotFound vid])) ∧
    (∀ url : String, tlookup st.videos vid = some url →
      (handle_del_video admin st m1).2 = [Reply.delVideoSuccess vid] ∧
      tlookup (handle_del_video admin st m1).1.videos vid = none) ∧
    (tlookup st.vips uid = none →
      handle_remove_vip admin st m2 = (st, [Reply.removeVipNotFound uid])) ∧
    (∀ e : VipEntry, tlookup st.vips uid = some e →
      (handle_remove_vip admin st m2).2 = [Reply.removeVipSuccess uid] ∧
      tlookup (handle_remove_vip admin st m2).1.vips uid = none) := by
  refine ⟨fun hnone => ?_, fun url hsome => ?_, fun hnone => ?_, fun e hsome => ?_⟩
  · unfold handle_del_video
    rw [hp1, hadm1]
    simp [hnone]
  · unfold handle_del_video
    rw [hp1, hadm1]
    simp [hsome, tlookup_tableDelete_self]
  · unfold handle_remove_vip
    rw [hp2, hadm2]
    simp [hnone]
  · unfold handle_remove_vip
    rw [hp2, hadm2]
    simp [hsome, tlookup_tableDelete_self]

/-- C9 witness: against a store holding video "abc" and VIP user "42", the
admin deleting the missing id "zzz" and the missing user "7" gets not-found
replies with the state unchanged, and deleting "abc" and "42" succeeds with
the rows gone. -/
theorem delete_missing_not_found_witness :
    ((tlookup ([("abc", "http://x")] : List (String × String)) "zzz" = none →
      handle_del_video (AdminId.num 1)
          (BotState.mk [("abc", "http://x")] [("42", VipEntry.mk 5 "1day")])
          (Message.mk 1 none "/delvideo zzz") =
        (BotState.mk [("abc", "http://x")] [("42", VipEntry.mk 5 "1day")],
         [Reply.delVideoNotFound "zzz"])) ∧
    (∀ url : String, tlookup ([("abc", "http://x")] : List (String × String)) "zzz" = some url →
      (handle_del_video (AdminId.num 1)
          (BotState.mk [("abc", "http://x")] [("42", VipEntry.mk 5 "1day")])
          (Message.mk 1 none "/delvideo zzz")).2 = [Reply.delVideoSuccess "zzz"] ∧
      tlookup (handle_del_video (AdminId.num 1)
          (BotState.mk [("abc", "http://x")] [("42", VipEntry.mk 5 "1day")])
          (Message.mk 1 none "/delvideo zzz")).1.videos "zzz" = none) ∧
    (tlookup ([("42", VipEntry.mk 5 "1day")] : List (String × VipEntry)) "42" = none →
      handle_remove_vip (AdminId.num 1)
          (BotState.mk [("abc", "http://x")] [("42", VipEntry.mk 5 "1day")])
          (Message.mk 1 none "/removevip 42") =
        (BotState.mk [("abc", "http://x")] [("42", VipEntry.mk 5 "1day")],
         [Reply.removeVipNotFound "42"])) ∧
    (∀ e : VipEntry, tlookup ([("42", VipEntry.mk 5 "1day")] : List (String × VipEntry)) "42" = some e →
      (handle_remove_vip (AdminId.num 1)
          (BotState.mk [("abc", "http://x")] [("42", VipEntry.mk 5 "1day")])
          (Message.mk 1 none "/removevip 42")).2 = [Reply.removeVipSuccess "42"] ∧
      tlookup (handle_remove_vip (AdminId.num 1)
          (BotState.mk [("abc", "http://x")] [("42", VipEntry.mk 5 "1day")])
          (Message.mk 1 none "/removevip 42")).1.vips "42" = none)) :=
  delete_missing_not_found (AdminId.num 1)
    (BotState.mk [("abc", "http://x")] [("42", VipEntry.mk 5 "1day")])
    (Message.mk 1 none "/delvideo zzz") (Message.mk 1 none "/removevip 42")
    "/delvideo" "/removevip" "zzz" "42" [] []
    (by decide) (by decide) (by decide) (by decide)

/-- C10 counterexample: "/setvip 42 1DAY" carries a package label outside the
fixed enumeration (the enumeration is lowercase), yet the authorized handler
does not reject it: it lowercases the label, grants the 1-day package and
mutates the store. -/
theorem set_vip_uppercase_package_cex :
    ("1DAY" ∉ ["1day", "3days", "7days", "30days"]) ∧
    is_admin (AdminId.num 1) (Message.mk 1 none "/setvip 42 1DAY") = true ∧
    (handle_set_vip (AdminId.num 1) (BotState.mk [] []) (Message.mk 1 none "/setvip 42 1DAY") 0).2 =
      [Reply.setvipSuccess "42" "1day" 1] ∧
    (handle_set_vip (AdminId.num 1) (BotState.mk [] []) (Message.mk 1 none "/setvip 42 1DAY") 0).1.vips =
      [("42", VipEntry.mk 86400 "1day")] :=
  ⟨by decide, by decide, by decide, by decide⟩

/-- C10 (amended): an authorized `/setvip` with fewer than two arguments gets
the usage reply with no mutation, and one whose package label is outside the
fixed enumeration after lowercasing gets the invalid-package reply with no
mutation. -/
theorem set_vip_malformed_rejected (admin : AdminId) (st : BotState) (m : Message)
    (now : Int)
    (hadm : is_admin admin m = true) :
    ((pySplit m.text).length < 3 →
      handle_set_vip admin st m now = (st, [Reply.setvipUsage])) ∧
    (∀ c u p : String, ∀ r : List String, pySplit m.text = c :: u :: p :: r →
      tlookup VIP_PACKAGES (pyLower p) = none →
      handle_set_vip admin st m now = (st, [Reply.invalidPackage])) := by
  constructor
  · intro hlen
    unfold handle_set_vip
    rcases hsplit : pySplit m.text with _ | ⟨a, _ | ⟨b, _ | ⟨cc, rest⟩⟩⟩
    · simp [hadm]
    · simp [hadm]
    · simp [hadm]
    · rw [hsplit] at hlen
      simp at hlen
      omega
  · intro c u p r hargs hpkg
    unfold handle_set_vip
    rw [hargs, hadm]
    simp [hpkg]

/-- C10 witness: the admin sending "/setvip 42" gets the usage echo, and
"/setvip 42 2days" (a label outside the enumeration even after lowercasing)
gets the invalid-package reply; neither touches the store. -/
theorem set_vip_malformed_rejected_witness :
    handle_set_vip (AdminId.num 1) (BotState.mk [] []) (Message.mk 1 none "/setvip 42") 0 =
      (BotState.mk [] [], [Reply.setvipUsage]) ∧
    handle_set_vip (AdminId.num 1) (BotState.mk [] []) (Message.mk 1 none "/setvip 42 2days") 0 =
      (BotState.mk [] [], [Reply.invalidPackage]) :=
  ⟨(set_vip_malformed_rejected (AdminId.num 1) (BotState.mk [] [])
      (Message.mk 1 none "/setvip 42") 0 (by decide)).1 (by decide),
   (set_vip_malformed_rejected (AdminId.num 1) (BotState.mk [] [])
      (Message.mk 1 none "/setvip 42 2days") 0 (by decide)).2
     "/setvip" "42" "2days" [] (by decide) (by decide)⟩

end VipBot
